import Mathlib

/-! Shallow embedding of the pytest-reqs plugin (src/pytest_reqs.py).

The plugin's logic is pure once the external world (pip's installed-package
inventory, pip's requirements-file parser, the `pip list -o` subprocess
output, and the ini/CLI configuration) is passed in as data, so every
function below is the direct functional translation of the corresponding
Python function, with the external inputs as explicit parameters.

Python strings are Lean `String`s; Python exceptions become `Except`
results; a Python `dict` built from a generator of key/value pairs becomes
an association list built by `dictOfList`, whose insertion overwrites an
existing binding exactly as a `dict` comprehension lets a later pair
overwrite an earlier one.
-/

/-- String helper: the ASCII lowering performed by Python `str.lower()`,
written over the character list so that it evaluates inside the kernel. -/
def strLower (s : String) : String := String.mk (s.data.map Char.toLower)

/-- String helper: Python `needle in haystack` (substring containment). -/
def pyIn (needle haystack : String) : Bool := decide (needle.data <:+: haystack.data)

/-- String helper: Python `line.startswith(p)`, written over the character
list so that it evaluates inside the kernel. -/
def strStartsWith (s p : String) : Bool := decide (p.data <+: s.data)

/-- Python exceptions that appear in the plugin: `ReqsError` (the plugin's
own failure class), `TypeError` (raised by iterating `None`), and
`ValueError` (raised by `distutils.util.strtobool`). -/
inductive PyException where
  | reqsError (msg : String)
  | typeError (msg : String)
  | valueError (msg : String)
deriving DecidableEq, Repr

/-- Whether an exception is the plugin's own `ReqsError` class. -/
def PyException.isReqsError : PyException → Bool
  | .reqsError _ => true
  | _ => false

/-- Installed distribution record, as produced by pip's inventory:
`d.project_name` and `d.version` are the two attributes the plugin reads. -/
structure Distribution where
  project_name : String
  version : String
deriving DecidableEq, Repr

/-- Outdated distribution record, one JSON object from
`pip list -o --format json`: the plugin reads `dist['name']` and
`dist['latest_version']`; `version` is the currently installed one. -/
structure OutdatedDist where
  name : String
  version : String
  latest_version : String
deriving DecidableEq, Repr

/-- Version-range specifier of a requirement; `contains` is the external
`packaging` library's containment test `req.specifier.contains(version)`. -/
structure VersionSpecifier where
  contains : String → Bool

/-- Parsed requirement line, as produced by pip's `parse_requirements`:
`name` is `None` for nameless lines, `comes_from` records the file the line
came from, `str_repr` is Python `str(req)` used in failure messages. -/
structure Requirement where
  name : Option String
  comes_from : String
  specifier : VersionSpecifier
  str_repr : String

/-- Error raised by pip's `parse_requirements` on a malformed file;
`msg` is `e.args[0]`. -/
structure InstallationError where
  msg : String
deriving DecidableEq, Repr

/-- Plugin-relevant pytest configuration after `pytest_sessionstart` ran:
the two CLI flags, the processed `reqsignorelocal` ini value, and the
`reqsfilenamepatterns` ini list ( `[]` when not configured). -/
structure Config where
  reqs : Bool
  reqs_outdated : Bool
  ignore_local : Bool
  patterns : List String
deriving DecidableEq, Repr

/-- Python dict insertion: overwrite the binding when the key is present,
append the pair otherwise. -/
def dictInsert (m : List (String × α)) (k : String) (v : α) : List (String × α) :=
  if m.any (fun p => p.1 = k) then m.map (fun p => if p.1 = k then (k, v) else p)
  else m ++ [(k, v)]

/-- Python dict built from a sequence of key/value pairs: later pairs
overwrite earlier ones, as in `dict((k, v) for ...)`. -/
def dictOfList (l : List (String × α)) : List (String × α) :=
  l.foldl (fun m p => dictInsert m p.1 p.2) []

/-- Python dict lookup `m[k]`, `none` standing for a `KeyError`. -/
def dictLookup (m : List (String × α)) (k : String) : Option α :=
  (m.find? (fun p => p.1 = k)).map (·.2)

/-- Translation of `get_installed_distributions_mapping` (lines 81-85):
`dict((d.project_name.lower(), d) for d in get_installed_distributions())`,
with the environment's inventory passed in as the list `dists`. -/
def get_installed_distributions_mapping (dists : List Distribution) : List (String × Distribution) :=
  dictOfList (dists.map (fun d => (strLower d.project_name, d)))

/-- Release triple of a pip version as compared by `packaging.version`. -/
structure PipVersion where
  major : Nat
  minor : Nat
  micro : Nat
deriving DecidableEq, Repr

/-- Lexicographic order on release triples, the order `packaging.version`
uses on plain release versions. -/
def PipVersion.ge (a b : PipVersion) : Bool :=
  (b.major < a.major) ||
    (b.major = a.major && (b.minor < a.minor ||
      (b.minor = a.minor && b.micro ≤ a.micro)))

/-- Translation of `get_outdated_requirements` (lines 88-101): when the
local pip is at least 9.0.0 it returns the parsed JSON list from the
`pip list -o --format json` subprocess (passed in as `pip_list_json`);
otherwise the function body ends without a `return`, i.e. returns `None`. -/
def get_outdated_requirements (local_pip_version : PipVersion)
    (pip_list_json : List OutdatedDist) : Option (List OutdatedDist) :=
  if PipVersion.ge local_pip_version ⟨9, 0, 0⟩ then some pip_list_json else none

/-- Translation of `distutils.util.strtobool`, called by
`pytest_sessionstart` on the `reqsignorelocal` ini value. -/
def strtobool (val : String) : Except PyException Nat :=
  let v := strLower val
  if v = "y" ∨ v = "yes" ∨ v = "t" ∨ v = "true" ∨ v = "on" ∨ v = "1" then .ok 1
  else if v = "n" ∨ v = "no" ∨ v = "f" ∨ v = "false" ∨ v = "off" ∨ v = "0" then .ok 0
  else .error (.valueError ("invalid truth value " ++ v))

/-- Translation of `pytest_sessionstart` (lines 58-64): builds the session
`Config` from the raw ini values and CLI flags. The ini string defaults to
`no` when empty (`config.getini('reqsignorelocal') or 'no'`), and
`strtobool`'s integer result is truthy iff nonzero. -/
def pytest_sessionstart (reqsignorelocal_ini : String)
    (reqsfilenamepatterns_ini : List String) (reqs reqs_outdated : Bool) :
    Except PyException Config :=
  match strtobool (if reqsignorelocal_ini = "" then "no" else reqsignorelocal_ini) with
  | .ok n => .ok ⟨reqs, reqs_outdated, n ≠ 0, reqsfilenamepatterns_ini⟩
  | .error e => .error e

/-- Translation of `PipOption` (lines 104-108), the options object handed
to pip's parser. -/
structure PipOption where
  skip_requirements_regex : String
  isolated_mode : Bool
  default_vcs : Option String
deriving DecidableEq, Repr

/-- Translation of `PipOption.__init__`: the skip regex is the
caret-dash-e pattern when local requirements are ignored, empty otherwise. -/
def PipOption.init (config : Config) : PipOption :=
  { skip_requirements_regex := if config.ignore_local then "^-e" else ""
  , isolated_mode := false
  , default_vcs := none }

/-- Model of the external pip parser's line-skipping (pip's
`req_file.py`): a line is skipped iff `options.skip_requirements_regex` is
nonempty and `re.search` of it matches the line. The plugin only ever
produces the empty regex and the caret-dash-e regex, whose search
semantics on a line is exactly: the line starts with the two characters
dash, e. Other regexes never reach the parser from this plugin. -/
def pip_skips_line (options : PipOption) (line : String) : Bool :=
  if options.skip_requirements_regex = "" then false
  else if options.skip_requirements_regex = "^-e" then strStartsWith line "-e"
  else false

/-- The four default filename patterns (lines 31-33). -/
def DEFAULT_PATTERNS : List String :=
  ["req*.txt", "req*.pip", "requirements/*.txt", "requirements/*.pip"]

/-- Translation of `_is_requirements` (lines 73-78): the configured
patterns, or the defaults when none are configured (`config.patterns or
DEFAULT_PATTERNS`), tried in order against the path; `fnmatch` models the
external `path.check(fnmatch=glob)` test of the py library and is passed
in as a function. -/
def _is_requirements (fnmatch : String → String → Bool) (config : Config)
    (path : String) : Bool :=
  (if config.patterns = [] then DEFAULT_PATTERNS else config.patterns).any
    (fun glob => fnmatch path glob)

/-- State of a `ReqsFile` node (lines 126-137): the file name, the
installed-distribution mapping, and the outdated list (initially `None`). -/
structure ReqsFile where
  filename : String
  installed_distributions : List (String × Distribution)
  pip_outdated_dists : Option (List OutdatedDist)

/-- Translation of `ReqsFile.__init__` with no explicit mapping given: the
mapping is computed by `get_installed_distributions_mapping`. -/
def ReqsFile.init (fspath : String) (dists : List Distribution) : ReqsFile :=
  { filename := fspath
  , installed_distributions := get_installed_distributions_mapping dists
  , pip_outdated_dists := none }

/-- Translation of `pytest_collect_file` (lines 67-70): collect the path
as a `ReqsFile` when `_is_requirements` accepts it, else return `None`. -/
def pytest_collect_file (fnmatch : String → String → Bool) (config : Config)
    (dists : List Distribution) (path : String) : Option ReqsFile :=
  if _is_requirements fnmatch config path then some (ReqsFile.init path dists) else none

/-- First line of a Python string, `s.split(chr(10))[0]`. -/
def firstLine (s : String) : String := (s.splitOn "\n").headD s

/-- Translation of the generator expression inside
`ReqsFile.get_requirements` (lines 144-148): the pair `(r.name.lower(), r)`
for each parsed requirement that has a name and whose `comes_from`
contains this file's name, in parse order. -/
def name_req_pairs (filename : String) (reqs : List Requirement) :
    List (String × Requirement) :=
  reqs.filterMap (fun r =>
    match r.name with
    | some n => if pyIn filename r.comes_from then some (strLower n, r) else none
    | none => none)

/-- Translation of `ReqsFile.get_requirements` (lines 139-154). The
external parser's outcome is passed in: either the list of parsed
requirements or the `InstallationError` it raised during iteration. The
dict is built from `name_req_pairs`; an `InstallationError` becomes a
`ReqsError` whose message is the error's first line followed by the file
name. -/
def ReqsFile.get_requirements (filename : String)
    (parsed : Except InstallationError (List Requirement)) :
    Except PyException (List (String × Requirement)) :=
  match parsed with
  | .error e => .error (.reqsError (firstLine e.msg ++ " (from -r " ++ filename ++ ")"))
  | .ok reqs => .ok (dictOfList (name_req_pairs filename reqs))

/-- Items yielded by `ReqsFile.collect`: a `ReqsItem` and/or an
`OutdatedReqsItem` per dict entry, depending on the enabled flags. -/
inductive CollectedItem where
  | reqsItem (name : String) (req : Requirement)
  | outdatedReqsItem (name : String) (req : Requirement)

/-- Translation of the item-yielding loop of `ReqsFile.collect`
(lines 160-164), over an already-built name-to-requirement dict. -/
def ReqsFile.collect (config : Config) (name_to_req : List (String × Requirement)) :
    List CollectedItem :=
  name_to_req.flatMap (fun p =>
    (if config.reqs then [CollectedItem.reqsItem p.1 p.2] else []) ++
      (if config.reqs_outdated then [CollectedItem.outdatedReqsItem p.1 p.2] else []))

/-- Translation of `ReqsBase.repr_failure` (lines 117-120): a `ReqsError`
renders as its first argument (`excinfo.value.args[0]`); any other
exception is delegated to the superclass, modelled as `none`. -/
def ReqsBase.repr_failure (e : PyException) : Option String :=
  match e with
  | .reqsError msg => some msg
  | _ => none

/-- Message of the missing-distribution failure of `ReqsItem.runtest`. -/
def missingMsg (name : String) : String :=
  "Distribution \"" ++ name ++ "\" is not installed"

/-- Message of the version-mismatch failure of `ReqsItem.runtest`. -/
def mismatchMsg (d : Distribution) (req : Requirement) : String :=
  "Distribution \"" ++ d.project_name ++ "\" requires " ++ req.str_repr ++
    " but " ++ d.version ++ " is installed"

/-- Translation of `ReqsItem.runtest` (lines 175-190): look the item's
name up in the installed mapping; a `KeyError` becomes the
not-installed `ReqsError`; an installed version outside the requirement's
specifier becomes the version-mismatch `ReqsError`; otherwise return. -/
def ReqsItem.runtest (name : String) (req : Requirement)
    (installed_distributions : List (String × Distribution)) : Except PyException Unit :=
  match dictLookup installed_distributions name with
  | none => .error (.reqsError (missingMsg name))
  | some d =>
    if req.specifier.contains d.version then .ok ()
    else .error (.reqsError (mismatchMsg d req))

/-- Message of the outdated-distribution failure of
`OutdatedReqsItem.runtest`. -/
def outdatedMsg (name : String) (req : Requirement) (d : OutdatedDist) : String :=
  "Distribution \"" ++ name ++ "\" is outdated (from " ++ req.comes_from ++
    "), latest version is " ++ name ++ "==" ++ d.latest_version

/-- The `for dist in self.parent.pip_outdated_dists` loop of
`OutdatedReqsItem.runtest` (lines 202-211): raise on the first record
whose `name` equals the item's name, return normally past the end. -/
def outdatedLoop (name : String) (req : Requirement) :
    List OutdatedDist → Except PyException Unit
  | [] => .ok ()
  | d :: rest =>
    if name = d.name then .error (.reqsError (outdatedMsg name req d))
    else outdatedLoop name req rest

/-- Translation of `OutdatedReqsItem.runtest` (lines 199-211): iterate the
parent's `pip_outdated_dists`; iterating `None` raises a `TypeError`. -/
def OutdatedReqsItem.runtest (name : String) (req : Requirement)
    (pip_outdated_dists : Option (List OutdatedDist)) : Except PyException Unit :=
  match pip_outdated_dists with
  | none => .error (.typeError "argument of type NoneType is not iterable")
  | some dists => outdatedLoop name req dists

/-- Whether a collected item is a `ReqsItem` carrying the given name. -/
def isReqsItemNamed (k : String) : CollectedItem → Bool
  | .reqsItem n _ => n = k
  | .outdatedReqsItem _ _ => false

/-- Whether a collected item is an `OutdatedReqsItem` carrying the given
name. -/
def isOutdatedItemNamed (k : String) : CollectedItem → Bool
  | .outdatedReqsItem n _ => n = k
  | .reqsItem _ _ => false

/-- Version specifier accepting every version (concrete test data). -/
def specAny : VersionSpecifier := ⟨fun _ => true⟩

/-- Version specifier rejecting every version (concrete test data). -/
def specNone : VersionSpecifier := ⟨fun _ => false⟩

/-- Concrete requirement as pip would parse the line `Django<2.0` of the
file `requirements.txt`. -/
def reqDjango : Requirement :=
  { name := some "Django"
  , comes_from := "-r requirements.txt (line 1)"
  , specifier := specAny
  , str_repr := "Django<2.0" }

/-- Concrete duplicate declaration of the same project, lower-case
spelling, on a later line of the same file. -/
def reqDjango2 : Requirement :=
  { name := some "django"
  , comes_from := "-r requirements.txt (line 2)"
  , specifier := specNone
  , str_repr := "django>1.0" }

/-- Concrete nameless requirement (for example a bare URL line). -/
def reqNameless : Requirement :=
  { name := none
  , comes_from := "-r requirements.txt (line 3)"
  , specifier := specAny
  , str_repr := "http://host/pkg.tar.gz" }

/-- Concrete requirement pulled in through a nested `-r other.txt`
include: its `comes_from` does not mention `requirements.txt`. -/
def reqNested : Requirement :=
  { name := some "flask"
  , comes_from := "-r other.txt (line 1)"
  , specifier := specAny
  , str_repr := "flask" }

/-! Helper lemmas about the Python-dict model. -/

theorem mem_dictInsert {α : Type} {m : List (String × α)} {k : String} {v : α}
    {p : String × α} (h : p ∈ dictInsert m k v) : p = (k, v) ∨ p ∈ m := by
  unfold dictInsert at h
  split at h
  · rw [List.mem_map] at h
    obtain ⟨q, hq, hfq⟩ := h
    by_cases hk : q.1 = k
    · simp only [hk, if_pos] at hfq
      exact Or.inl hfq.symm
    · simp only [hk, if_neg, if_false] at hfq
      exact Or.inr (hfq ▸ hq)
  · rw [List.mem_append, List.mem_singleton] at h
    exact h.symm.imp id id

theorem mem_foldl_dictInsert {α : Type} {p : String × α} :
    ∀ (l acc : List (String × α)),
      p ∈ l.foldl (fun m q => dictInsert m q.1 q.2) acc → p ∈ acc ∨ p ∈ l := by
  intro l
  induction l with
  | nil => intro acc h; exact Or.inl h
  | cons q rest ih =>
    intro acc h
    rcases ih (dictInsert acc q.1 q.2) h with h' | h'
    · rcases mem_dictInsert h' with h'' | h''
      · exact Or.inr (by simp [h''])
      · exact Or.inl h''
    · exact Or.inr (List.mem_cons_of_mem _ h')

theorem mem_dictOfList {α : Type} {l : List (String × α)} {p : String × α}
    (h : p ∈ dictOfList l) : p ∈ l := by
  rcases mem_foldl_dictInsert l [] h with h' | h'
  · cases h'
  · exact h'

theorem keys_dictInsert {α : Type} (m : List (String × α)) (k : String) (v : α) :
    (dictInsert m k v).map Prod.fst =
      if k ∈ m.map Prod.fst then m.map Prod.fst else m.map Prod.fst ++ [k] := by
  unfold dictInsert
  by_cases h : m.any (fun p => p.1 = k) = true
  · have hk : k ∈ m.map Prod.fst := by
      rw [List.any_eq_true] at h
      obtain ⟨q, hq, hqk⟩ := h
      rw [List.mem_map]
      exact ⟨q, hq, by simpa using hqk⟩
    rw [if_pos h, if_pos hk, List.map_map]
    apply List.map_congr_left
    intro q _
    by_cases hqk : q.1 = k <;> simp [hqk]
  · have hk : k ∉ m.map Prod.fst := by
      intro hc
      rw [List.mem_map] at hc
      obtain ⟨q, hq, hqk⟩ := hc
      exact h (List.any_eq_true.mpr ⟨q, hq, by simpa using hqk⟩)
    rw [if_neg h, if_neg hk, List.map_append]
    rfl

theorem nodup_keys_dictInsert {α : Type} (m : List (String × α)) (k : String) (v : α)
    (h : (m.map Prod.fst).Nodup) : ((dictInsert m k v).map Prod.fst).Nodup := by
  rw [keys_dictInsert]
  by_cases hk : k ∈ m.map Prod.fst
  · rwa [if_pos hk]
  · rw [if_neg hk, List.nodup_append]
    exact ⟨h, List.nodup_singleton k, by
      intro a ha hb
      rw [List.mem_singleton] at hb
      exact hk (hb ▸ ha)⟩

theorem nodup_keys_foldl_dictInsert {α : Type} :
    ∀ (l acc : List (String × α)), (acc.map Prod.fst).Nodup →
      ((l.foldl (fun m q => dictInsert m q.1 q.2) acc).map Prod.fst).Nodup := by
  intro l
  induction l with
  | nil => intro acc h; exact h
  | cons q rest ih =>
    intro acc h
    exact ih (dictInsert acc q.1 q.2) (nodup_keys_dictInsert acc q.1 q.2 h)

theorem nodup_keys_dictOfList {α : Type} (l : List (String × α)) :
    ((dictOfList l).map Prod.fst).Nodup :=
  nodup_keys_foldl_dictInsert l [] List.nodup_nil

theorem find?_map_overwrite {α : Type} (k : String) (v : α) :
    ∀ (m : List (String × α)), m.any (fun p => p.1 = k) = true →
      (m.map (fun p => if p.1 = k then (k, v) else p)).find? (fun p => p.1 = k) =
        some (k, v) := by
  intro m
  induction m with
  | nil => intro h; cases h
  | cons q rest ih =>
    intro h
    by_cases hq : q.1 = k
    · simp [hq, List.find?]
    · have h' : rest.any (fun p => p.1 = k) = true := by
        rw [List.any_cons] at h
        simpa [hq] using h
      simpa [hq, List.find?] using ih h'

theorem find?_map_untouched {α : Type} (k k' : String) (v : α) (hne : k' ≠ k) :
    ∀ (m : List (String × α)),
      (m.map (fun p => if p.1 = k then (k, v) else p)).find? (fun p => p.1 = k') =
        m.find? (fun p => p.1 = k') := by
  intro m
  induction m with
  | nil => rfl
  | cons q rest ih =>
    rw [List.map_cons]
    by_cases hq : q.1 = k
    · rw [if_pos hq]
      have h1 : ¬ (((k, v) : String × α).1 = k') := fun hc => hne hc.symm
      have h2 : ¬ (q.1 = k') := by rw [hq]; exact fun hc => hne hc.symm
      rw [List.find?_cons_of_neg _ (by simpa using h1),
        List.find?_cons_of_neg _ (by simpa using h2), ih]
    · rw [if_neg hq]
      by_cases hq' : q.1 = k'
      · rw [List.find?_cons_of_pos _ (by simpa using hq'),
          List.find?_cons_of_pos _ (by simpa using hq')]
      · rw [List.find?_cons_of_neg _ (by simpa using hq'),
          List.find?_cons_of_neg _ (by simpa using hq'), ih]

theorem dictLookup_dictInsert {α : Type} (m : List (String × α)) (k k' : String) (v : α) :
    dictLookup (dictInsert m k v) k' = if k' = k then some v else dictLookup m k' := by
  unfold dictInsert dictLookup
  by_cases hany : m.any (fun p => p.1 = k) = true
  · rw [if_pos hany]
    by_cases hk : k' = k
    · subst hk
      rw [if_pos rfl, find?_map_overwrite k' v m hany]
      rfl
    · rw [if_neg hk, find?_map_untouched k k' v hk m]
  · rw [if_neg hany, List.find?_append]
    by_cases hk : k' = k
    · subst hk
      have hnone : m.find? (fun p => p.1 = k') = none := by
        rw [List.find?_eq_none]
        intro q hq hc
        exact hany (List.any_eq_true.mpr ⟨q, hq, hc⟩)
      simp [hnone, List.find?]
    · have hk' : ¬ (k = k') := fun hc => hk hc.symm
      have hnone : ([(k, v)] : List (String × α)).find? (fun p => p.1 = k') = none := by
        rw [List.find?_singleton]
        simp [hk']
      simp only [hnone, if_neg hk, Option.or_none]

theorem dictLookup_dictOfList {α : Type} (l : List (String × α)) (k : String) :
    dictLookup (dictOfList l) k = (l.reverse.find? (fun p => p.1 = k)).map (·.2) := by
  induction l using List.reverseRecOn with
  | nil => rfl
  | append_singleton l p ih =>
    have hfold : dictOfList (l ++ [p]) = dictInsert (dictOfList l) p.1 p.2 := by
      unfold dictOfList
      rw [List.foldl_append]
      rfl
    have hsing : (l ++ [p]).reverse = p :: l.reverse := by
      rw [List.reverse_append]
      rfl
    rw [hfold, dictLookup_dictInsert, hsing]
    by_cases hk : k = p.1
    · rw [if_pos hk, List.find?_cons_of_pos _ (by simpa using hk.symm)]
      rfl
    · have hpk : ¬ p.1 = k := fun hc => hk hc.symm
      rw [if_neg hk, List.find?_cons_of_neg _ (by simpa using hpk), ih]

/-! Helper lemmas about the check loops and item generation. -/

theorem outdatedLoop_eq_find (name : String) (req : Requirement) :
    ∀ dists : List OutdatedDist,
      outdatedLoop name req dists =
        match dists.find? (fun d => name = d.name) with
        | some d => .error (.reqsError (outdatedMsg name req d))
        | none => .ok () := by
  intro dists
  induction dists with
  | nil => rfl
  | cons d rest ih =>
    by_cases hd : name = d.name
    · rw [List.find?_cons_of_pos _ (by simpa using hd)]
      simp only [outdatedLoop, if_pos hd]
    · rw [List.find?_cons_of_neg _ (by simpa using hd)]
      simp only [outdatedLoop, if_neg hd]
      exact ih

theorem outdatedLoop_error_iff (name : String) (req : Requirement)
    (dists : List OutdatedDist) :
    (∃ msg, outdatedLoop name req dists = .error (.reqsError msg)) ↔
      ∃ d ∈ dists, name = d.name := by
  rw [outdatedLoop_eq_find]
  cases hfind : dists.find? (fun d => name = d.name) with
  | none =>
    constructor
    · rintro ⟨msg, hmsg⟩
      cases hmsg
    · rintro ⟨d, hd, hname⟩
      rw [List.find?_eq_none] at hfind
      exact absurd (by simpa using hname) (hfind d hd)
  | some d =>
    constructor
    · intro _
      exact ⟨d, List.mem_of_find?_eq_some hfind, by simpa using List.find?_some hfind⟩
    · intro _
      exact ⟨outdatedMsg name req d, rfl⟩

theorem outdatedLoop_cases (name : String) (req : Requirement)
    (dists : List OutdatedDist) :
    outdatedLoop name req dists = .ok () ∨
      ∃ msg, outdatedLoop name req dists = .error (.reqsError msg) := by
  rw [outdatedLoop_eq_find]
  cases dists.find? (fun d => name = d.name) with
  | none => exact Or.inl rfl
  | some d => exact Or.inr ⟨outdatedMsg name req d, rfl⟩

theorem runtest_error_iff (name : String) (req : Requirement)
    (installed : List (String × Distribution)) :
    (∃ msg, ReqsItem.runtest name req installed = .error (.reqsError msg)) ↔
      (dictLookup installed name = none ∨
        ∃ d, dictLookup installed name = some d ∧
          req.specifier.contains d.version = false) := by
  unfold ReqsItem.runtest
  cases h : dictLookup installed name with
  | none => simp
  | some d =>
    by_cases hc : req.specifier.contains d.version <;> simp [hc]

theorem runtest_ok_iff (name : String) (req : Requirement)
    (installed : List (String × Distribution)) :
    ReqsItem.runtest name req installed = .ok () ↔
      ∃ d, dictLookup installed name = some d ∧
        req.specifier.contains d.version = true := by
  unfold ReqsItem.runtest
  cases h : dictLookup installed name with
  | none => simp
  | some d =>
    by_cases hc : req.specifier.contains d.version <;> simp [hc]

theorem mem_name_req_pairs {filename : String} {reqs : List Requirement}
    {k : String} {r : Requirement} (h : (k, r) ∈ name_req_pairs filename reqs) :
    r ∈ reqs ∧ ∃ n, r.name = some n ∧ k = strLower n ∧
      pyIn filename r.comes_from = true := by
  unfold name_req_pairs at h
  rw [List.mem_filterMap] at h
  obtain ⟨r₀, hr₀, hf⟩ := h
  cases hn : r₀.name with
  | none => rw [hn] at hf; cases hf
  | some n =>
    rw [hn] at hf
    have hf' : (if pyIn filename r₀.comes_from = true then some (strLower n, r₀)
        else none) = some (k, r) := hf
    by_cases hin : pyIn filename r₀.comes_from = true
    · rw [if_pos hin] at hf'
      obtain ⟨hk, hr⟩ := Prod.mk.injEq .. ▸ Option.some.inj hf'
      subst hr
      exact ⟨hr₀, n, hn, hk.symm, hin⟩
    · rw [if_neg hin] at hf'
      cases hf'

theorem mem_collect_reqsItem {config : Config} {m : List (String × Requirement)}
    {k : String} {r : Requirement}
    (h : CollectedItem.reqsItem k r ∈ ReqsFile.collect config m) : (k, r) ∈ m := by
  unfold ReqsFile.collect at h
  rw [List.mem_flatMap] at h
  obtain ⟨p, hp, hmem⟩ := h
  rw [List.mem_append] at hmem
  rcases hmem with hmem | hmem
  · split at hmem
    · rw [List.mem_singleton] at hmem
      obtain ⟨hk, hr⟩ := CollectedItem.reqsItem.injEq .. ▸ hmem
      rw [hk, hr]
      exact hp
    · cases hmem
  · split at hmem
    · rw [List.mem_singleton] at hmem
      cases hmem
    · cases hmem

theorem mem_collect_outdatedItem {config : Config} {m : List (String × Requirement)}
    {k : String} {r : Requirement}
    (h : CollectedItem.outdatedReqsItem k r ∈ ReqsFile.collect config m) : (k, r) ∈ m := by
  unfold ReqsFile.collect at h
  rw [List.mem_flatMap] at h
  obtain ⟨p, hp, hmem⟩ := h
  rw [List.mem_append] at hmem
  rcases hmem with hmem | hmem
  · split at hmem
    · rw [List.mem_singleton] at hmem
      cases hmem
    · cases hmem
  · split at hmem
    · rw [List.mem_singleton] at hmem
      obtain ⟨hk, hr⟩ := CollectedItem.outdatedReqsItem.injEq .. ▸ hmem
      rw [hk, hr]
      exact hp
    · cases hmem

theorem collect_filter_reqs_length (config : Config) (k : String) :
    ∀ m : List (String × Requirement),
      ((ReqsFile.collect config m).filter (isReqsItemNamed k)).length =
        (if config.reqs then 1 else 0) * m.countP (fun p => p.1 = k) := by
  intro m
  induction m with
  | nil => simp [ReqsFile.collect]
  | cons p rest ih =>
    unfold ReqsFile.collect at ih ⊢
    rw [List.flatMap_cons, List.filter_append, List.length_append, ih,
      List.countP_cons]
    by_cases hr : config.reqs <;> by_cases ho : config.reqs_outdated <;>
      by_cases hpk : p.1 = k <;>
      simp [hr, ho, hpk, isReqsItemNamed, Nat.mul_add] <;> omega

theorem collect_filter_outdated_length (config : Config) (k : String) :
    ∀ m : List (String × Requirement),
      ((ReqsFile.collect config m).filter (isOutdatedItemNamed k)).length =
        (if config.reqs_outdated then 1 else 0) * m.countP (fun p => p.1 = k) := by
  intro m
  induction m with
  | nil => simp [ReqsFile.collect]
  | cons p rest ih =>
    unfold ReqsFile.collect at ih ⊢
    rw [List.flatMap_cons, List.filter_append, List.length_append, ih,
      List.countP_cons]
    by_cases hr : config.reqs <;> by_cases ho : config.reqs_outdated <;>
      by_cases hpk : p.1 = k <;>
      simp [hr, ho, hpk, isOutdatedItemNamed, Nat.mul_add] <;> omega

theorem countP_key_le_one_of_nodup {α : Type} (k : String) :
    ∀ m : List (String × α), (m.map Prod.fst).Nodup →
      m.countP (fun p => p.1 = k) ≤ 1 := by
  intro m
  induction m with
  | nil => intro _; simp
  | cons p rest ih =>
    intro h
    rw [List.map_cons, List.nodup_cons] at h
    rw [List.countP_cons]
    by_cases hpk : p.1 = k
    · have hzero : rest.countP (fun p => p.1 = k) = 0 := by
        rw [List.countP_eq_zero]
        intro q hq
        simp only [decide_eq_true_eq]
        intro hqk
        exact h.1 (List.mem_map.mpr ⟨q, hq, hqk.trans hpk.symm⟩)
      simp [hzero, hpk]
    · simpa [hpk] using ih h.2

theorem strtobool_zero_or_one (v : String) (n : Nat)
    (h : strtobool v = .ok n) : n = 0 ∨ n = 1 := by
  simp only [strtobool] at h
  split at h
  · exact Or.inr (Except.ok.inj h).symm
  · split at h
    · exact Or.inl (Except.ok.inj h).symm
    · cases h

/-! Claim theorems. -/

/-- C1: for every declared requirement and installed-distribution mapping,
`ReqsItem.runtest` raises a `ReqsError` iff the name it was given (the
case-folded requirement name used as the item's name) is absent from the
installed mapping, or the installed distribution found under that name has
a version outside the requirement's specifier; otherwise it returns
normally. -/
theorem claim_C1_runtest_failure_iff (name : String) (req : Requirement)
    (installed : List (String × Distribution)) :
    ((∃ msg, ReqsItem.runtest name req installed = .error (.reqsError msg)) ↔
      (dictLookup installed name = none ∨
        ∃ d, dictLookup installed name = some d ∧
          req.specifier.contains d.version = false))
    ∧ (ReqsItem.runtest name req installed = .ok () ↔
      ∃ d, dictLookup installed name = some d ∧
        req.specifier.contains d.version = true) :=
  ⟨runtest_error_iff name req installed, runtest_ok_iff name req installed⟩

/-- C2 counterexample: the outdated check compares the lowercased
requirement name with the record's name verbatim, so it is not
case-insensitive on the record side: for the requirement name `django` and
an outdated record named `Django` (names equal after case folding), the
check raises nothing. -/
theorem claim_C2_counterexample :
    strLower "django" = strLower "Django"
    ∧ OutdatedReqsItem.runtest "django" reqDjango
        (some [{ name := "Django", version := "1.0", latest_version := "2.0" }]) =
      .ok () :=
  ⟨by decide, rfl⟩

/-- C2 (amended): the installed mapping is keyed by lowercased project
name and requirement names are lowercased before being used as keys, but
the outdated check compares the lowercased requirement name with each
record's name by exact string equality, which is case-sensitive on the
record side: a failure is raised iff some record's name verbatim equals
the item's name. -/
theorem claim_C2_case_folded_joins :
    (∀ (dists : List Distribution) (k : String) (d : Distribution),
      (k, d) ∈ get_installed_distributions_mapping dists →
        k = strLower d.project_name)
    ∧ (∀ (filename : String) (reqs : List Requirement)
        (m : List (String × Requirement)),
        ReqsFile.get_requirements filename (.ok reqs) = .ok m →
          ∀ k r, (k, r) ∈ m → ∃ n, r.name = some n ∧ k = strLower n)
    ∧ (∀ (name : String) (req : Requirement) (dists : List OutdatedDist),
        (∃ msg, OutdatedReqsItem.runtest name req (some dists) =
            .error (.reqsError msg)) ↔
          ∃ d ∈ dists, name = d.name) := by
  refine ⟨?_, ?_, ?_⟩
  · intro dists k d h
    have h' := mem_dictOfList h
    rw [List.mem_map] at h'
    obtain ⟨d₀, _, hd₀⟩ := h'
    obtain ⟨hk, hd⟩ := Prod.mk.injEq .. ▸ hd₀
    rw [← hk, hd]
  · intro filename reqs m h k r hkr
    simp only [ReqsFile.get_requirements] at h
    obtain rfl := (Except.ok.inj h).symm
    obtain ⟨-, n, hn, hk, -⟩ := mem_name_req_pairs (mem_dictOfList hkr)
    exact ⟨n, hn, hk⟩
  · intro name req dists
    exact outdatedLoop_error_iff name req dists

/-- C2 witness: the amended theorem applied to the concrete inventory
containing the single distribution `Django 1.8`, whose mapping key is the
case-folded name. -/
theorem claim_C2_witness : "django" = strLower "Django" :=
  claim_C2_case_folded_joins.1 [⟨"Django", "1.8"⟩] "django" ⟨"Django", "1.8"⟩
    (by decide)

/-- C3: with the outdated list available, `OutdatedReqsItem.runtest`
raises a `ReqsError` iff the requirement's name appears (verbatim) among
the outdated records; the failure comes from the first matching record and
its message ends with that record's latest available version; when the
name appears in no record, `runtest` returns normally. -/
theorem claim_C3_outdated_failure_iff (name : String) (req : Requirement)
    (dists : List OutdatedDist) :
    ((∃ msg, OutdatedReqsItem.runtest name req (some dists) =
        .error (.reqsError msg)) ↔ ∃ d ∈ dists, name = d.name)
    ∧ (∀ d, dists.find? (fun x => name = x.name) = some d →
        OutdatedReqsItem.runtest name req (some dists) =
          .error (.reqsError (outdatedMsg name req d))
        ∧ ∃ s, outdatedMsg name req d = s ++ d.latest_version)
    ∧ (dists.find? (fun x => name = x.name) = none →
        OutdatedReqsItem.runtest name req (some dists) = .ok ()) := by
  refine ⟨outdatedLoop_error_iff name req dists, ?_, ?_⟩
  · intro d hd
    constructor
    · show outdatedLoop name req dists = _
      rw [outdatedLoop_eq_find, hd]
    · exact ⟨_, rfl⟩
  · intro hnone
    show outdatedLoop name req dists = _
    rw [outdatedLoop_eq_find, hnone]

/-- C3 witness: the theorem applied to the single outdated record
`django 1.0 -> 2.0`: it matches the requirement name `django`, giving the
failure with the latest version in the message, and does not match the
requirement name `flask`, whose check returns normally. -/
theorem claim_C3_witness :
    (OutdatedReqsItem.runtest "django" reqDjango
        (some [⟨"django", "1.0", "2.0"⟩]) =
      .error (.reqsError (outdatedMsg "django" reqDjango ⟨"django", "1.0", "2.0"⟩))
    ∧ ∃ s, outdatedMsg "django" reqDjango ⟨"django", "1.0", "2.0"⟩ = s ++ "2.0")
    ∧ OutdatedReqsItem.runtest "flask" reqNested
        (some [⟨"django", "1.0", "2.0"⟩]) = .ok () :=
  ⟨(claim_C3_outdated_failure_iff "django" reqDjango [⟨"django", "1.0", "2.0"⟩]).2.1
      ⟨"django", "1.0", "2.0"⟩ (by decide),
   (claim_C3_outdated_failure_iff "flask" reqNested [⟨"django", "1.0", "2.0"⟩]).2.2
      (by decide)⟩

/-- C4: a parser `InstallationError` is converted by `get_requirements`
into a `ReqsError` whose message is exactly the first line of the parser
error followed by the offending file's name; `repr_failure` renders a
`ReqsError` as exactly its message; and every failure a check item can
raise over an available environment (missing package, version mismatch,
outdated package) is a `ReqsError`, never any other exception class. -/
theorem claim_C4_failures_are_reqs_errors :
    (∀ (filename : String) (e : InstallationError),
      ReqsFile.get_requirements filename (.error e) =
        .error (.reqsError (firstLine e.msg ++ " (from -r " ++ filename ++ ")")))
    ∧ (∀ msg, ReqsBase.repr_failure (.reqsError msg) = some msg)
    ∧ (∀ (name : String) (req : Requirement)
        (installed : List (String × Distribution)),
        ReqsItem.runtest name req installed = .ok () ∨
          ∃ msg, ReqsItem.runtest name req installed = .error (.reqsError msg))
    ∧ (∀ (name : String) (req : Requirement) (dists : List OutdatedDist),
        OutdatedReqsItem.runtest name req (some dists) = .ok () ∨
          ∃ msg, OutdatedReqsItem.runtest name req (some dists) =
            .error (.reqsError msg)) := by
  refine ⟨fun _ _ => rfl, fun _ => rfl, ?_, ?_⟩
  · intro name req installed
    cases h : dictLookup installed name with
    | none => exact Or.inr ((runtest_error_iff name req installed).mpr (Or.inl h))
    | some d =>
      by_cases hc : req.specifier.contains d.version = true
      · exact Or.inl ((runtest_ok_iff name req installed).mpr ⟨d, h, hc⟩)
      · exact Or.inr ((runtest_error_iff name req installed).mpr
          (Or.inr ⟨d, h, by simpa using hc⟩))
  · intro name req dists
    exact outdatedLoop_cases name req dists

/-- C5: the requirements check is deterministic: two invocations of
`ReqsItem.runtest` on the same requirement and the same installed mapping
produce the same outcome, including the same error message. -/
theorem claim_C5_runtest_deterministic (name : String) (req : Requirement)
    (installed : List (String × Distribution))
    (r₁ r₂ : Except PyException Unit)
    (h₁ : r₁ = ReqsItem.runtest name req installed)
    (h₂ : r₂ = ReqsItem.runtest name req installed) : r₁ = r₂ :=
  h₁.trans h₂.symm

/-- C5 witness: two runs of the check of `Django<2.0` against the empty
environment agree. -/
theorem claim_C5_witness :
    ReqsItem.runtest "django" reqDjango [] = ReqsItem.runtest "django" reqDjango [] :=
  claim_C5_runtest_deterministic "django" reqDjango [] _ _ rfl rfl

/-- C6: `pytest_collect_file` collects a path as a `ReqsFile` iff the path
matches at least one configured filename pattern, or, when no patterns are
configured, at least one of the four default patterns. -/
theorem claim_C6_collect_file_iff (fnmatch : String → String → Bool)
    (config : Config) (dists : List Distribution) (path : String) :
    ((pytest_collect_file fnmatch config dists path).isSome = true ↔
      ∃ glob ∈ (if config.patterns = [] then DEFAULT_PATTERNS else config.patterns),
        fnmatch path glob = true)
    ∧ DEFAULT_PATTERNS =
      ["req*.txt", "req*.pip", "requirements/*.txt", "requirements/*.pip"] := by
  refine ⟨?_, rfl⟩
  unfold pytest_collect_file _is_requirements
  by_cases h : (if config.patterns = [] then DEFAULT_PATTERNS
      else config.patterns).any (fun glob => fnmatch path glob) = true
  · rw [if_pos h]
    simp only [Option.isSome_some, true_iff]
    simpa using List.any_eq_true.mp h
  · rw [if_neg h]
    simp only [Option.isSome_none, Bool.false_eq_true, false_iff]
    intro hc
    exact h (List.any_eq_true.mpr (by simpa using hc))

/-- C7: after session start, parsing skips (excludes) exactly the lines
that start with dash, e when the processed `reqsignorelocal` value is
truthy, and skips nothing otherwise; the processed value is truthy iff
the ini string (defaulted to `no` when absent) maps to 1 under
`strtobool`. -/
theorem claim_C7_ignore_local_editable (ini : String) (pats : List String)
    (r ro : Bool) (c : Config)
    (h : pytest_sessionstart ini pats r ro = .ok c) :
    (∀ line, pip_skips_line (PipOption.init c) line =
      (c.ignore_local && strStartsWith line "-e"))
    ∧ (c.ignore_local = true ↔
        strtobool (if ini = "" then "no" else ini) = .ok 1) := by
  constructor
  · intro line
    unfold pip_skips_line PipOption.init
    by_cases hi : c.ignore_local = true
    · simp [hi]
    · simp [hi, Bool.not_eq_true _ ▸ hi]
  · unfold pytest_sessionstart at h
    cases hs : strtobool (if ini = "" then "no" else ini) with
    | error e =>
      rw [hs] at h
      have h' : (Except.error e : Except PyException Config) = .ok c := h
      cases h'
    | ok n =>
      rw [hs] at h
      have h' : Except.ok (⟨r, ro, n ≠ 0, pats⟩ : Config) = Except.ok c := h
      obtain rfl := (Except.ok.inj h').symm
      rcases strtobool_zero_or_one _ n hs with h0 | h1
      · subst h0
        simp [hs]
      · subst h1
        simp [hs]

/-- C7 witness: the theorem applied to the ini value `yes`: the check for
a line declaring an editable local source reports it skipped. -/
theorem claim_C7_witness :
    pip_skips_line (PipOption.init ⟨false, false, true, []⟩) "-e ./pkg" =
      (true && strStartsWith "-e ./pkg" "-e") :=
  (claim_C7_ignore_local_editable "yes" [] false false ⟨false, false, true, []⟩
    rfl).1 "-e ./pkg"

/-- C8: with the outdated list present, an outdated check ends normally or
with a `ReqsError`; but when the installed pip is older than 9.0.0,
`get_outdated_requirements` returns `None`, and running an outdated check
item then fails with an exception that is not a `ReqsError` (iterating
`None` raises a `TypeError`). -/
theorem claim_C8_old_pip_crash (v : PipVersion) (out : List OutdatedDist)
    (name : String) (req : Requirement)
    (h : PipVersion.ge v ⟨9, 0, 0⟩ = false) :
    get_outdated_requirements v out = none
    ∧ (∃ e, OutdatedReqsItem.runtest name req (get_outdated_requirements v out) =
        .error e ∧ e.isReqsError = false)
    ∧ (∀ dists, OutdatedReqsItem.runtest name req (some dists) = .ok () ∨
        ∃ msg, OutdatedReqsItem.runtest name req (some dists) =
          .error (.reqsError msg)) := by
  have hnone : get_outdated_requirements v out = none := by
    simp [get_outdated_requirements, h]
  refine ⟨hnone, ?_, fun dists => outdatedLoop_cases name req dists⟩
  rw [hnone]
  exact ⟨.typeError "argument of type NoneType is not iterable", rfl, rfl⟩

/-- C8 witness: the theorem applied to pip 8.1.2, an empty subprocess
output and the concrete requirement `Django<2.0`. -/
theorem claim_C8_witness :
    get_outdated_requirements ⟨8, 1, 2⟩ [] = none
    ∧ ∃ e, OutdatedReqsItem.runtest "django" reqDjango
        (get_outdated_requirements ⟨8, 1, 2⟩ []) = .error e
      ∧ e.isReqsError = false :=
  ⟨(claim_C8_old_pip_crash ⟨8, 1, 2⟩ [] "django" reqDjango (by decide)).1,
   (claim_C8_old_pip_crash ⟨8, 1, 2⟩ [] "django" reqDjango (by decide)).2.1⟩

/-- C9: `get_requirements` silently drops any parsed requirement that has
no name and any requirement whose `comes_from` does not contain this
file's name: parsing still succeeds, the dropped requirement is bound to
no key of the dict, and `collect` yields no item carrying it, under
either option. -/
theorem claim_C9_silently_excluded (filename : String) (reqs : List Requirement) :
    ∃ m, ReqsFile.get_requirements filename (.ok reqs) = .ok m
      ∧ ∀ r ∈ reqs, (r.name = none ∨ pyIn filename r.comes_from = false) →
        (∀ k, (k, r) ∉ m)
        ∧ (∀ config k, CollectedItem.reqsItem k r ∉ ReqsFile.collect config m
            ∧ CollectedItem.outdatedReqsItem k r ∉ ReqsFile.collect config m) := by
  refine ⟨dictOfList (name_req_pairs filename reqs), rfl, ?_⟩
  intro r _ hprop
  have hnotin : ∀ k, (k, r) ∉ dictOfList (name_req_pairs filename reqs) := by
    intro k hk
    obtain ⟨-, n, hn, -, hin⟩ := mem_name_req_pairs (mem_dictOfList hk)
    rcases hprop with hname | hcf
    · rw [hname] at hn
      cases hn
    · rw [hcf] at hin
      cases hin
  exact ⟨hnotin, fun config k =>
    ⟨fun hmem => hnotin k (mem_collect_reqsItem hmem),
     fun hmem => hnotin k (mem_collect_outdatedItem hmem)⟩⟩

/-- C9 witness: the theorem applied to a file containing a nameless line
and a requirement coming from a nested include of `other.txt`: neither is
bound in the resulting dict. -/
theorem claim_C9_witness :
    ∃ m, ReqsFile.get_requirements "requirements.txt"
        (.ok [reqNameless, reqNested]) = .ok m
      ∧ (∀ k, (k, reqNameless) ∉ m) ∧ ∀ k, (k, reqNested) ∉ m := by
  obtain ⟨m, hm, h⟩ :=
    claim_C9_silently_excluded "requirements.txt" [reqNameless, reqNested]
  exact ⟨m, hm, (h reqNameless (by simp) (Or.inl rfl)).1,
    (h reqNested (by simp) (Or.inr (by decide))).1⟩

/-- C10: the name-to-requirement dict binds each case-folded name at most
once, the binding kept is the last eligible declaration with that
case-folded name, and for each name `collect` yields at most one
`ReqsItem` and at most one `OutdatedReqsItem`. -/
theorem claim_C10_duplicates_deduplicated (filename : String)
    (reqs : List Requirement) (m : List (String × Requirement)) (config : Config)
    (h : ReqsFile.get_requirements filename (.ok reqs) = .ok m) :
    (m.map Prod.fst).Nodup
    ∧ (∀ k, dictLookup m k =
        ((name_req_pairs filename reqs).reverse.find? (fun p => p.1 = k)).map (·.2))
    ∧ (∀ k, ((ReqsFile.collect config m).filter (isReqsItemNamed k)).length ≤ 1
        ∧ ((ReqsFile.collect config m).filter (isOutdatedItemNamed k)).length ≤ 1) := by
  simp only [ReqsFile.get_requirements] at h
  obtain rfl := (Except.ok.inj h).symm
  refine ⟨nodup_keys_dictOfList _, fun k => dictLookup_dictOfList _ k, fun k => ?_⟩
  have hcount := countP_key_le_one_of_nodup k _
    (nodup_keys_dictOfList (name_req_pairs filename reqs))
  have hr1 : (if config.reqs then 1 else 0) ≤ 1 := by split <;> simp
  have ho1 : (if config.reqs_outdated then 1 else 0) ≤ 1 := by split <;> simp
  constructor
  · rw [collect_filter_reqs_length]
    exact le_trans (Nat.mul_le_mul hr1 hcount) (le_of_eq (Nat.one_mul 1))
  · rw [collect_filter_outdated_length]
    exact le_trans (Nat.mul_le_mul ho1 hcount) (le_of_eq (Nat.one_mul 1))

/-- C10 witness: the theorem applied to a file declaring `Django<2.0` and
then `django>1.0`: one binding survives, under the key `django`. -/
theorem claim_C10_witness :
    (([("django", reqDjango2)] : List (String × Requirement)).map Prod.fst).Nodup :=
  (claim_C10_duplicates_deduplicated "requirements.txt" [reqDjango, reqDjango2]
    [("django", reqDjango2)] ⟨true, true, false, []⟩ rfl).1
